import Mathlib

/-!
Shallow embedding of the gradebook database repository
(demo.py, src/exercises.py, src/homework.py) and proofs of the
specification claims about it.

The embedding models:
  * the scalar values SQLite hands back to Python and their `str` conversion;
  * the tabular result formatter `print_rows`;
  * the exercises schema (students, courses, enrollments) with its CRUD
    helpers, UNIQUE / FOREIGN KEY checks and explicit transactions;
  * the homework/demo gradebook schema (students, assignments, grades) with
    the join, aggregation and rollback demonstrations;
  * the schema-creation scripts of each of the three program variants.

Machine floats of SQLite are idealised as exact rationals; `ROUND(x, 1)`
is `round1` below.
-/

/-- Scalar cell values as the formatter receives them; `Value.str` is the
Python `str()` conversion applied before measuring column widths. -/
inductive Value where
  | vInt (i : Int)
  | vText (s : String)
  | vNull
deriving DecidableEq

/-- Python `str()` of a scalar cell value. -/
def Value.str : Value → String
  | .vInt i => toString i
  | .vText s => s
  | .vNull => "None"

/-- A materialised query result: the shared column names of the cursor and
the rows as positional value lists (a `sqlite3.Row` is positional storage
keyed by the shared column list). -/
structure ResultSet where
  cols : List String
  rows : List (List Value)
deriving DecidableEq

/-- A run of `n` copies of character `c`, Python `c * n`. -/
def repChar (n : Nat) (c : Char) : String :=
  String.mk (List.replicate n c)

/-- Python `s.ljust(w)`: left-justify, padding with spaces on the right;
returns `s` unchanged when it is already at least `w` long. -/
def ljust (s : String) (w : Nat) : String :=
  s ++ repChar (w - s.length) ' '

/-- Stringified cell of row `r` at column position `j` (out-of-range cells
never arise for uniform rows). -/
def cellStr (r : List Value) (j : Nat) : String :=
  (r.getD j .vNull).str

/-- Column width used by `print_rows`:
`max(len(c), max(len(str(r[c])) for r in rows))` for the column at
position `j`. -/
def colWidth (rs : ResultSet) (j : Nat) : Nat :=
  max (rs.cols.getD j "").length
    (rs.rows.foldr (fun r acc => max (cellStr r j).length acc) 0)

/-- Header line of `print_rows`: each column name left-justified to its
column width, joined by the fixed delimiter. -/
def headerLine (rs : ResultSet) : String :=
  String.intercalate " | "
    (rs.cols.enum.map (fun p => ljust p.2 (colWidth rs p.1)))

/-- Dash rule of `print_rows` between header and body. -/
def sepLine (rs : ResultSet) : String :=
  String.intercalate "-+-"
    (rs.cols.enum.map (fun p => repChar (colWidth rs p.1) '-'))

/-- Body line of `print_rows` for one row. -/
def bodyLine (rs : ResultSet) (r : List Value) : String :=
  String.intercalate " | "
    (r.enum.map (fun p => ljust p.2.str (colWidth rs p.1)))

/-- The embedding of `print_rows(title, rows)`: the list of lines written
to standard output. -/
def printRows (title : String) (rs : ResultSet) : List String :=
  ["", repChar 80 '=', title, repChar 80 '-'] ++
    (if rs.rows.isEmpty then ["(no rows)"]
     else [headerLine rs, sepLine rs] ++ rs.rows.map (bodyLine rs))

/-! ### Exercises schema: students, courses, enrollments -/

/-- Errors the embedded engine raises; `integrityError` is sqlite3.IntegrityError
(UNIQUE / FOREIGN KEY / CHECK failures), `operationalError` is
sqlite3.OperationalError (for example creating a table that already exists). -/
inductive SqlError where
  | integrityError
  | operationalError
deriving DecidableEq

/-- Row of the exercises `students` table. -/
structure StudentRow where
  id : Nat
  name : String
  email : String
deriving DecidableEq

/-- Row of the exercises `courses` table. -/
structure CourseRow where
  id : Nat
  code : String
  title : String
deriving DecidableEq

/-- Row of the exercises `enrollments` table (the `enrolled_at` wall-clock
timestamp column is not modelled). -/
structure EnrollRow where
  id : Nat
  studentId : Nat
  courseId : Nat
deriving DecidableEq

/-- State of the exercises database: table contents plus the AUTOINCREMENT
counters that produce the next surrogate ids. -/
structure ExDB where
  students : List StudentRow
  courses : List CourseRow
  enrollments : List EnrollRow
  nextStudentId : Nat
  nextCourseId : Nat
  nextEnrollId : Nat
deriving DecidableEq

/-- Embedding of `add_student`: parameterized INSERT INTO students; fails
with IntegrityError when the UNIQUE email constraint is violated, otherwise
returns the updated database and `cursor.lastrowid`. -/
def addStudent (db : ExDB) (name email : String) : Except SqlError (ExDB × Nat) :=
  if db.students.any (fun s => s.email = email) then .error .integrityError
  else .ok ({ db with
                students := db.students ++ [⟨db.nextStudentId, name, email⟩],
                nextStudentId := db.nextStudentId + 1 },
            db.nextStudentId)

/-- Embedding of `find_student_by_email`: SELECT ... WHERE email = ? with
`fetchone()`, i.e. the first row of the table scan that matches, or `none`. -/
def findStudentByEmail (db : ExDB) (email : String) : Option StudentRow :=
  db.students.find? (fun s => s.email = email)

/-- Embedding of `rename_student`: UPDATE students SET name = ? WHERE id = ?;
returns the updated database and `cursor.rowcount`, the number of rows the
WHERE clause matched. -/
def renameStudent (db : ExDB) (sid : Nat) (newName : String) : ExDB × Nat :=
  ({ db with students :=
      db.students.map (fun s => if s.id = sid then { s with name := newName } else s) },
   (db.students.filter (fun s => s.id = sid)).length)

/-- Embedding of `delete_student`: DELETE FROM students WHERE id = ?; the
engine cascades deletion of the matched students' enrollments
(ON DELETE CASCADE), and `cursor.rowcount` counts only the rows deleted
from `students` itself. -/
def deleteStudent (db : ExDB) (sid : Nat) : ExDB × Nat :=
  if db.students.any (fun s => s.id = sid) then
    ({ db with
        students := db.students.filter (fun s => ¬ s.id = sid),
        enrollments := db.enrollments.filter (fun e => ¬ e.studentId = sid) },
     (db.students.filter (fun s => s.id = sid)).length)
  else (db, 0)

/-- Embedding of `enroll_student`: INSERT INTO enrollments; IntegrityError
when a FOREIGN KEY (missing student or course) or the
UNIQUE(student_id, course_id) constraint is violated. -/
def enrollStudent (db : ExDB) (sid cid : Nat) : Except SqlError ExDB :=
  if ¬ db.students.any (fun s => s.id = sid) then .error .integrityError
  else if ¬ db.courses.any (fun c => c.id = cid) then .error .integrityError
  else if db.enrollments.any (fun e => e.studentId = sid ∧ e.courseId = cid) then
    .error .integrityError
  else .ok { db with
              enrollments := db.enrollments ++ [⟨db.nextEnrollId, sid, cid⟩],
              nextEnrollId := db.nextEnrollId + 1 }

/-- Output row of `list_enrollments`: student_name, course_code, course_title. -/
structure EnrollOut where
  studentName : String
  courseCode : String
  courseTitle : String
deriving DecidableEq

/-- ORDER BY s.name, c.code of `list_enrollments`: lexicographic comparison
on the (student_name, course_code) key. -/
def enrollLE (a b : EnrollOut) : Prop :=
  a.studentName < b.studentName ∨
    (a.studentName = b.studentName ∧ a.courseCode ≤ b.courseCode)

instance : DecidableRel enrollLE := fun a b => by
  unfold enrollLE; infer_instance

instance : IsTotal EnrollOut enrollLE := by
  constructor
  intro a b
  rcases lt_trichotomy a.studentName b.studentName with h | h | h
  · exact Or.inl (Or.inl h)
  · rcases le_total a.courseCode b.courseCode with h2 | h2
    · exact Or.inl (Or.inr ⟨h, h2⟩)
    · exact Or.inr (Or.inr ⟨h.symm, h2⟩)
  · exact Or.inr (Or.inl h)

instance : IsTrans EnrollOut enrollLE := by
  constructor
  intro a b c hab hbc
  rcases hab with h1 | ⟨h1, h1b⟩
  · rcases hbc with h2 | ⟨h2, _⟩
    · exact Or.inl (h1.trans h2)
    · exact Or.inl (h2 ▸ h1)
  · rcases hbc with h2 | ⟨h2, h2b⟩
    · exact Or.inl (h1 ▸ h2)
    · exact Or.inr ⟨h1.trans h2, h1b.trans h2b⟩

/-- Embedding of `list_enrollments`: the three-way inner join of
enrollments with students and courses, ordered by student name then course
code. -/
def listEnrollments (db : ExDB) : List EnrollOut :=
  List.insertionSort enrollLE
    (db.enrollments.filterMap (fun e =>
      match db.students.find? (fun s => s.id = e.studentId),
            db.courses.find? (fun c => c.id = e.courseId) with
      | some s, some c => some ⟨s.name, c.code, c.title⟩
      | _, _ => none))

/-- Connection state for the explicit-transaction demonstrations: the
current visible database plus the snapshot a ROLLBACK would restore. -/
structure ExConn where
  db : ExDB
  snapshot : ExDB
deriving DecidableEq

/-- Statement BEGIN: remember the state that ROLLBACK will restore. -/
def beginTxn (c : ExConn) : ExConn := { c with snapshot := c.db }

/-- Statement ROLLBACK: discard all writes made since the matching BEGIN. -/
def rollbackTxn (c : ExConn) : ExConn := { c with db := c.snapshot }

/-- The duplicate-enrollment transaction of `exercises.main`: BEGIN, enroll
(sid, cid), enroll the same pair again, COMMIT — except that on the first
IntegrityError the caller prints a diagnostic and issues ROLLBACK. Returns
the final connection and whether an IntegrityError was raised. -/
def dupEnrollTxn (c : ExConn) (sid cid : Nat) : ExConn × Bool :=
  let c1 := beginTxn c
  match enrollStudent c1.db sid cid with
  | .error _ => (rollbackTxn c1, true)
  | .ok db1 =>
    match enrollStudent db1 sid cid with
    | .error _ => (rollbackTxn { c1 with db := db1 }, true)
    | .ok db2 => ({ c1 with db := db2 }, false)

/-! ### Gradebook schema: students, assignments, grades (homework and demo) -/

/-- Row of the gradebook `students` table. -/
structure GStudent where
  id : Nat
  name : String
  email : String
deriving DecidableEq

/-- Row of the gradebook `assignments` table; `max_points` is CHECKed > 0. -/
structure GAssignment where
  id : Nat
  title : String
  maxPoints : Int
deriving DecidableEq

/-- Row of the gradebook `grades` table (the `created_at` timestamp of the
demo variant is not modelled); `score` is CHECKed >= 0. -/
structure GGrade where
  id : Nat
  studentId : Nat
  assignmentId : Nat
  score : Int
deriving DecidableEq

/-- State of the gradebook database of homework.py / demo.py. -/
structure GbDB where
  students : List GStudent
  assignments : List GAssignment
  grades : List GGrade
  nextStudentId : Nat
  nextAssignmentId : Nat
  nextGradeId : Nat
deriving DecidableEq

/-- SQLite `ROUND(q, 1)` on the exact-rational idealisation of its floats:
round to one decimal place, halves away from zero for the nonnegative
values arising here. -/
def round1 (q : ℚ) : ℚ :=
  ((⌊q * 10 + 1 / 2⌋ : ℤ) : ℚ) / 10

/-- Embedding of homework `add_student`. -/
def hwAddStudent (db : GbDB) (name email : String) : Except SqlError (GbDB × Nat) :=
  if db.students.any (fun s => s.email = email) then .error .integrityError
  else .ok ({ db with
                students := db.students ++ [⟨db.nextStudentId, name, email⟩],
                nextStudentId := db.nextStudentId + 1 },
            db.nextStudentId)

/-- Embedding of `add_assignment`; the CHECK (max_points > 0) constraint
raises IntegrityError. -/
def addAssignment (db : GbDB) (title : String) (maxPoints : Int) :
    Except SqlError (GbDB × Nat) :=
  if maxPoints ≤ 0 then .error .integrityError
  else .ok ({ db with
                assignments := db.assignments ++ [⟨db.nextAssignmentId, title, maxPoints⟩],
                nextAssignmentId := db.nextAssignmentId + 1 },
            db.nextAssignmentId)

/-- Embedding of `record_grade`: INSERT INTO grades; IntegrityError on the
CHECK (score >= 0), a missing foreign row, or a duplicate
(student_id, assignment_id) pair. -/
def recordGrade (db : GbDB) (sid aid : Nat) (score : Int) :
    Except SqlError (GbDB × Nat) :=
  if score < 0 then .error .integrityError
  else if ¬ db.students.any (fun s => s.id = sid) then .error .integrityError
  else if ¬ db.assignments.any (fun a => a.id = aid) then .error .integrityError
  else if db.grades.any (fun g => g.studentId = sid ∧ g.assignmentId = aid) then
    .error .integrityError
  else .ok ({ db with
                grades := db.grades ++ [⟨db.nextGradeId, sid, aid, score⟩],
                nextGradeId := db.nextGradeId + 1 },
            db.nextGradeId)

/-- Output row of demo_join: student, assignment, score. -/
structure JoinOut where
  student : String
  assignment : String
  score : Int
deriving DecidableEq

/-- ORDER BY s.name, a.title of demo_join. -/
def joinLE (a b : JoinOut) : Prop :=
  a.student < b.student ∨ (a.student = b.student ∧ a.assignment ≤ b.assignment)

instance : DecidableRel joinLE := fun a b => by
  unfold joinLE; infer_instance

instance : IsTotal JoinOut joinLE := by
  constructor
  intro a b
  rcases lt_trichotomy a.student b.student with h | h | h
  · exact Or.inl (Or.inl h)
  · rcases le_total a.assignment b.assignment with h2 | h2
    · exact Or.inl (Or.inr ⟨h, h2⟩)
    · exact Or.inr (Or.inr ⟨h.symm, h2⟩)
  · exact Or.inr (Or.inl h)

instance : IsTrans JoinOut joinLE := by
  constructor
  intro a b c hab hbc
  rcases hab with h1 | ⟨h1, h1b⟩
  · rcases hbc with h2 | ⟨h2, _⟩
    · exact Or.inl (h1.trans h2)
    · exact Or.inl (h2 ▸ h1)
  · rcases hbc with h2 | ⟨h2, h2b⟩
    · exact Or.inl (h1 ▸ h2)
    · exact Or.inr ⟨h1.trans h2, h1b.trans h2b⟩

/-- Embedding of `demo_join`: grades joined with students and assignments,
ORDER BY s.name, a.title. -/
def demoJoin (db : GbDB) : List JoinOut :=
  List.insertionSort joinLE
    (db.grades.filterMap (fun g =>
      match db.students.find? (fun s => s.id = g.studentId),
            db.assignments.find? (fun a => a.id = g.assignmentId) with
      | some s, some a => some ⟨s.name, a.title, g.score⟩
      | _, _ => none))

/-- Output row of `student_grade_report`:
assignment_title, score, max_points, percent. -/
structure ReportOut where
  assignmentTitle : String
  score : Int
  maxPoints : Int
  percent : ℚ
deriving DecidableEq

/-- Embedding of `student_grade_report`: grades of one student joined with
assignments, `percent = ROUND(1.0 * score / max_points * 100, 1)`. The query
has no ORDER BY clause, so rows come back in the order of the scan of the
`grades` table. -/
def studentGradeReport (db : GbDB) (sid : Nat) : List ReportOut :=
  db.grades.filterMap (fun g =>
    if g.studentId = sid then
      (db.assignments.find? (fun a => a.id = g.assignmentId)).map (fun a =>
        ⟨a.title, g.score, a.maxPoints,
         round1 ((g.score : ℚ) / (a.maxPoints : ℚ) * 100)⟩)
    else none)

/-- ORDER BY avg_percent DESC of the leaderboard. -/
def descLE (a b : String × ℚ) : Prop := b.2 ≤ a.2

instance : DecidableRel descLE := fun a b => by
  unfold descLE; infer_instance

instance : IsTotal (String × ℚ) descLE :=
  ⟨fun a b => (le_total b.2 a.2).imp id id⟩

instance : IsTrans (String × ℚ) descLE :=
  ⟨fun _ _ _ hab hbc => le_trans hbc hab⟩

/-- Per-student score fractions: the `1.0 * g.score / a.max_points` terms of
the student's rows of the grades-students-assignments join, in grades-table
order. -/
def scoreFracs (db : GbDB) (sid : Nat) : List ℚ :=
  db.grades.filterMap (fun g =>
    if g.studentId = sid then
      (db.assignments.find? (fun a => a.id = g.assignmentId)).map (fun a =>
        (g.score : ℚ) / (a.maxPoints : ℚ))
    else none)

/-- Embedding of `leaderboard` (and of the identical `demo_aggregation`
query): for each student owning at least one joined grade row,
`ROUND(AVG(1.0 * g.score / a.max_points) * 100, 1)`, ordered by this
average descending. -/
def leaderboard (db : GbDB) : List (String × ℚ) :=
  List.insertionSort descLE
    (db.students.filterMap (fun s =>
      let fracs := scoreFracs db s.id
      if fracs.isEmpty then none
      else some (s.name, round1 (fracs.sum / (fracs.length : ℚ) * 100))))

/-- Connection state over the gradebook database. -/
structure GbConn where
  db : GbDB
  snapshot : GbDB
deriving DecidableEq

/-- BEGIN on a gradebook connection. -/
def gbBeginTxn (c : GbConn) : GbConn := { c with snapshot := c.db }

/-- ROLLBACK on a gradebook connection. -/
def gbRollbackTxn (c : GbConn) : GbConn := { c with db := c.snapshot }

/-- The transaction of `demo_transaction_rollback`: pick the first existing
(student_id, assignment_id) pair of `grades` (asserted to exist), BEGIN,
insert a duplicate grade for that pair, COMMIT — the insert violates
UNIQUE(student_id, assignment_id), so the caller rolls back. Returns the
final connection and whether an IntegrityError was raised, or `none` when
the assert on an empty grades table fails. -/
def demoTxnRollback (c : GbConn) : Option (GbConn × Bool) :=
  match c.db.grades.head? with
  | none => none
  | some g =>
    let c1 := gbBeginTxn c
    match recordGrade c1.db g.studentId g.assignmentId 0 with
    | .error _ => some (gbRollbackTxn c1, true)
    | .ok p => some ({ c1 with db := p.1 }, false)

/-- Seeded demo database: the exact contents `seed_data` leaves in
demo_school.db (ids assigned by AUTOINCREMENT in insertion order). -/
def seededGb : GbDB :=
  { students := [⟨1, "Ava", "ava@example.com"⟩, ⟨2, "Noah", "noah@example.com"⟩,
                 ⟨3, "Maya", "maya@example.com"⟩],
    assignments := [⟨1, "Quiz 1", 10⟩, ⟨2, "Homework 1", 100⟩, ⟨3, "Midterm", 200⟩],
    grades := [⟨1, 1, 1, 9⟩, ⟨2, 1, 2, 95⟩, ⟨3, 2, 1, 7⟩, ⟨4, 2, 2, 88⟩,
               ⟨5, 3, 1, 10⟩, ⟨6, 3, 2, 92⟩, ⟨7, 3, 3, 180⟩],
    nextStudentId := 4, nextAssignmentId := 4, nextGradeId := 8 }

/-! ### Schema creation scripts of the three variants -/

/-- Database file of demo.py as the schema script sees it: each of the three
tables either absent or present with some rows, plus the two indexes on
`grades` (an index is dropped together with its table). -/
structure DemoFile where
  students : Option (List GStudent)
  assignments : Option (List GAssignment)
  grades : Option (List GGrade)
  idxGradesStudentId : Bool
  idxGradesAssignmentId : Bool
deriving DecidableEq

/-- Embedding of demo.py `create_schema`: DROP TABLE IF EXISTS
grades/assignments/students, then CREATE TABLE each (failing with
OperationalError if the table still exists) and CREATE INDEX both indexes. -/
def createSchemaDemo (f : DemoFile) : Except SqlError DemoFile :=
  let f1 : DemoFile := { f with grades := none,
                                idxGradesStudentId := false,
                                idxGradesAssignmentId := false }
  let f2 : DemoFile := { f1 with assignments := none }
  let f3 : DemoFile := { f2 with students := none }
  match f3.students with
  | some _ => .error .operationalError
  | none =>
    let f4 : DemoFile := { f3 with students := some [] }
    match f4.assignments with
    | some _ => .error .operationalError
    | none =>
      let f5 : DemoFile := { f4 with assignments := some [] }
      match f5.grades with
      | some _ => .error .operationalError
      | none =>
        let f6 : DemoFile := { f5 with grades := some [] }
        if f6.idxGradesStudentId then .error .operationalError
        else
          let f7 : DemoFile := { f6 with idxGradesStudentId := true }
          if f7.idxGradesAssignmentId then .error .operationalError
          else .ok { f7 with idxGradesAssignmentId := true }

/-- Database file of homework.py as its schema script sees it. -/
structure HwFile where
  students : Option (List GStudent)
  assignments : Option (List GAssignment)
  grades : Option (List GGrade)
deriving DecidableEq

/-- Embedding of homework.py `create_schema`: DROP TABLE IF EXISTS
STUDENTS/ASSIGNMENTS/GRADES (SQLite table names are case-insensitive),
then CREATE TABLE students, assignments, grades. -/
def createSchemaHomework (f : HwFile) : Except SqlError HwFile :=
  let f1 : HwFile := { f with students := none }
  let f2 : HwFile := { f1 with assignments := none }
  let f3 : HwFile := { f2 with grades := none }
  match f3.students with
  | some _ => .error .operationalError
  | none =>
    let f4 : HwFile := { f3 with students := some [] }
    match f4.assignments with
    | some _ => .error .operationalError
    | none =>
      let f5 : HwFile := { f4 with assignments := some [] }
      match f5.grades with
      | some _ => .error .operationalError
      | none => .ok { f5 with grades := some [] }

/-- Database file of exercises.py as its schema script sees it. -/
structure ExFile where
  students : Option (List StudentRow)
  courses : Option (List CourseRow)
  enrollments : Option (List EnrollRow)
deriving DecidableEq

/-- Embedding of exercises.py `create_schema`: CREATE TABLE students,
courses, enrollments — the script contains no DROP statements, so any
pre-existing table of the same name makes the script fail with
OperationalError. -/
def createSchemaExercises (f : ExFile) : Except SqlError ExFile :=
  match f.students with
  | some _ => .error .operationalError
  | none =>
    let f1 : ExFile := { f with students := some [] }
    match f1.courses with
    | some _ => .error .operationalError
    | none =>
      let f2 : ExFile := { f1 with courses := some [] }
      match f2.enrollments with
      | some _ => .error .operationalError
      | none => .ok { f2 with enrollments := some [] }

/-- The fresh empty demo schema. -/
def freshDemoFile : DemoFile := ⟨some [], some [], some [], true, true⟩

/-- The fresh empty homework schema. -/
def freshHwFile : HwFile := ⟨some [], some [], some []⟩

/-- The fresh empty exercises schema. -/
def freshExFile : ExFile := ⟨some [], some [], some []⟩

/-! ### Concrete database states used to instantiate the theorems -/

/-- The freshly created, empty exercises database. -/
def emptyEx : ExDB := ⟨[], [], [], 1, 1, 1⟩

/-- The exercises database right before the duplicate-enrollment
transaction of `exercises.main`: the three seeded courses, students Ava
and Noah, and no enrollments. -/
def seededEx : ExDB :=
  { students := [⟨1, "Ava", "ava@example.com"⟩, ⟨2, "Noah", "noah@example.com"⟩],
    courses := [⟨1, "CS101", "Intro to Programming"⟩, ⟨2, "CS205", "Web Development"⟩,
                ⟨3, "CS310", "Data Structures"⟩],
    enrollments := [],
    nextStudentId := 3, nextCourseId := 4, nextEnrollId := 1 }

/-- The exercises database after inserting Ava into `emptyEx`. -/
def c6Db2 : ExDB := ⟨[⟨1, "Ava", "ava@example.com"⟩], [], [], 2, 1, 1⟩

/-- A gradebook state whose grades were recorded against assignment "B"
first and assignment "A" second, exhibiting the unspecified ordering of
`student_grade_report`. -/
def c4Db : GbDB :=
  { students := [⟨1, "Stu", "stu@example.com"⟩],
    assignments := [⟨1, "B", 10⟩, ⟨2, "A", 10⟩],
    grades := [⟨1, 1, 1, 5⟩, ⟨2, 1, 2, 7⟩],
    nextStudentId := 2, nextAssignmentId := 3, nextGradeId := 3 }

/-- Specification-side aggregation, following the words of the spec: the
arithmetic mean of the per-assignment percents (score / max_points × 100),
rounded to one decimal place. -/
def specAvgPercent (percents : List ℚ) : ℚ :=
  round1 (percents.sum / (percents.length : ℚ))

/-- A small concrete result set (two columns, two rows) for instantiating
the formatter theorems. -/
def sampleRs : ResultSet :=
  { cols := ["id", "name"],
    rows := [[.vInt 1, .vText "Ava"], [.vInt 2, .vText "Noah"]] }

/-! ### Helper lemmas -/

/-- Conditional filterMap splits into a filter followed by a filterMap. -/
theorem filterMap_ite {α β : Type} (p : α → Prop) [DecidablePred p] (f : α → Option β) :
    ∀ l : List α,
      (l.filterMap fun a => if p a then f a else none) =
        (l.filter fun a => p a).filterMap f
  | [] => rfl
  | a :: l => by
    by_cases h : p a
    · simp [List.filterMap_cons, List.filter_cons, h, filterMap_ite p f l]
    · simp [List.filterMap_cons, List.filter_cons, h, filterMap_ite p f l]

/-- Length of a filterMap counts the elements on which the function fires. -/
theorem length_filterMap_eq {α β : Type} (f : α → Option β) :
    ∀ l : List α, (l.filterMap f).length = (l.filter fun a => (f a).isSome).length
  | [] => rfl
  | a :: l => by
    cases h : f a with
    | none => simp [List.filterMap_cons, List.filter_cons, h, length_filterMap_eq f l]
    | some b => simp [List.filterMap_cons, List.filter_cons, h, length_filterMap_eq f l]

/-! ### Claim theorems -/

/-- C9: on the empty row sequence the formatter prints, after the title
block and rule, exactly the fixed "(no rows)" placeholder and nothing
else — in particular no header, no separator, no body, and no failure. -/
theorem c9_empty_formatter (title : String) (cols : List String) :
    printRows title ⟨cols, []⟩ =
      ["", repChar 80 '=', title, repChar 80 '-', "(no rows)"] := rfl

/-- C2: the leaderboard aggregation equals, for each group, the
spec-side arithmetic mean of the per-assignment percents rounded to one
decimal place; its rows are always in descending avg-percent order;
exactly the students with at least one graded assignment appear; and on
the seeded demo data the result is Maya 94.0 above Ava 92.5 above Noah
79.0, with Maya's value exactly (100 + 92 + 90) / 3. -/
theorem c2_leaderboard :
    (∀ fracs : List ℚ,
        round1 (fracs.sum / (fracs.length : ℚ) * 100) =
          specAvgPercent (fracs.map (fun r => r * 100))) ∧
    (∀ db : GbDB, List.Sorted descLE (leaderboard db)) ∧
    (∀ db : GbDB, (leaderboard db).length =
        (db.students.filter (fun s => ¬ (scoreFracs db s.id).isEmpty)).length) ∧
    leaderboard seededGb = [("Maya", 94), ("Ava", 185 / 2), ("Noah", 79)] ∧
    (94 : ℚ) = (100 + 92 + 90) / 3 := by
  refine ⟨fun fracs => ?_, fun db => ?_, fun db => ?_, ?_, by norm_num⟩
  · unfold specAvgPercent
    rw [show (fracs.map (fun r => r * 100)).sum = fracs.sum * 100 from by
          simpa using List.sum_map_mul_right fracs id 100,
        List.length_map, div_mul_eq_mul_div]
  · exact List.sorted_insertionSort descLE _
  · unfold leaderboard
    rw [List.length_insertionSort, length_filterMap_eq]
    congr 1
    refine List.filter_congr fun s _ => ?_
    by_cases h : (scoreFracs db s.id).isEmpty <;> simp [h]
  · norm_num [leaderboard, scoreFracs, seededGb, round1, descLE,
      List.insertionSort, List.orderedInsert, List.filterMap, List.find?]

/-- C3 counterexample: the exercises variant of `create_schema` contains no
DROP statements, so while it succeeds on a fresh empty file, running it
again on the state it just produced fails with OperationalError instead of
recreating the empty schema. -/
theorem c3_schema_counterexample :
    createSchemaExercises ⟨none, none, none⟩ = .ok freshExFile ∧
    createSchemaExercises freshExFile = .error .operationalError :=
  ⟨rfl, rfl⟩

/-- C3 amended: the demo and homework variants drop any pre-existing
tables and recreate them, so from every prior state they succeed and leave
the fixed empty schema; the exercises variant succeeds (with the same
result) only when none of its tables already exist. -/
theorem c3_schema_amended (d : DemoFile) (hw : HwFile) (e : ExFile)
    (h1 : e.students = none) (h2 : e.courses = none) (h3 : e.enrollments = none) :
    createSchemaDemo d = .ok freshDemoFile ∧
    createSchemaHomework hw = .ok freshHwFile ∧
    createSchemaExercises e = .ok freshExFile := by
  obtain ⟨es, ec, en⟩ := e
  dsimp only at h1 h2 h3
  subst h1
  subst h2
  subst h3
  exact ⟨rfl, rfl, rfl⟩

/-- C3 witness: the amended claim at concrete non-fresh demo and homework
files and a fresh exercises file. -/
theorem c3_schema_amended_witness :
    createSchemaDemo ⟨some [⟨1, "Ava", "ava@example.com"⟩], none, some [], false, true⟩ =
        .ok freshDemoFile ∧
    createSchemaHomework ⟨none, some [⟨1, "Quiz 1", 10⟩], some []⟩ = .ok freshHwFile ∧
    createSchemaExercises ⟨none, none, none⟩ = .ok freshExFile :=
  c3_schema_amended _ _ _ rfl rfl rfl

/-- C4 counterexample: `student_grade_report` has no ORDER BY clause; on a
state whose grades were inserted against assignment "B" before assignment
"A", it returns the rows in insertion order, which is not sorted by the
stated student-name-then-secondary-key order (here the assignment title). -/
theorem c4_ordering_counterexample :
    (studentGradeReport c4Db 1).map (fun r => r.assignmentTitle) = ["B", "A"] ∧
    ¬ List.Sorted (fun a b : ReportOut => a.assignmentTitle ≤ b.assignmentTitle)
        (studentGradeReport c4Db 1) := by
  have hmap : (studentGradeReport c4Db 1).map (fun r => r.assignmentTitle) = ["B", "A"] := by
    decide
  refine ⟨hmap, fun hs => ?_⟩
  have hm : List.Pairwise (fun a b : String => a ≤ b)
      ((studentGradeReport c4Db 1).map (fun r => r.assignmentTitle)) :=
    hs.map _ (fun a b h => h)
  rw [hmap] at hm
  have : ("B" : String) ≤ "A" := List.rel_of_pairwise_cons hm (List.mem_singleton.mpr rfl)
  exact absurd this (by rw [String.le_iff_toList_le]; decide)

/-- C4 amended: `demo_join` and `list_enrollments` do return rows in their
stated deterministic order (student name then assignment title / course
code); `student_grade_report` specifies no ordering and returns its rows in
the scan order of the grades table. -/
theorem c4_ordering_amended :
    (∀ db : GbDB, List.Sorted joinLE (demoJoin db)) ∧
    (∀ db : ExDB, List.Sorted enrollLE (listEnrollments db)) ∧
    (∀ (db : GbDB) (sid : Nat),
      studentGradeReport db sid =
        (db.grades.filter (fun g => g.studentId = sid)).filterMap (fun g =>
          (db.assignments.find? (fun a => a.id = g.assignmentId)).map (fun a =>
            (⟨a.title, g.score, a.maxPoints,
              round1 ((g.score : ℚ) / (a.maxPoints : ℚ) * 100)⟩ : ReportOut)))) := by
  refine ⟨fun db => ?_, fun db => ?_, fun db sid => ?_⟩
  · exact List.sorted_insertionSort joinLE _
  · exact List.sorted_insertionSort enrollLE _
  · unfold studentGradeReport
    exact filterMap_ite _ _ _

/-- C1: the duplicate-insert transactions always raise an IntegrityError
and, after the caller's ROLLBACK, no partial effects remain: the exercises
duplicate-enrollment transaction leaves the database exactly as before the
BEGIN (so the enrollment listing is again empty and the row count is
unchanged), and the demo duplicate-grade transaction restores the database
and its grades row count. -/
theorem c1_txn_rollback (c : ExConn) (sid cid : Nat) (g : GbConn)
    (hEmpty : c.db.enrollments = []) (hg : g.db.grades ≠ []) :
    (dupEnrollTxn c sid cid).2 = true ∧
    (dupEnrollTxn c sid cid).1.db = c.db ∧
    listEnrollments (dupEnrollTxn c sid cid).1.db = [] ∧
    (dupEnrollTxn c sid cid).1.db.enrollments.length = c.db.enrollments.length ∧
    (∃ c2 : GbConn, demoTxnRollback g = some (c2, true) ∧ c2.db = g.db ∧
        c2.db.grades.length = g.db.grades.length) := by
  have hmem : ∀ db1, enrollStudent c.db sid cid = .ok db1 →
      enrollStudent db1 sid cid = .error .integrityError := by
    intro db1 h1
    unfold enrollStudent at h1 ⊢
    simp only [List.any_eq_true, decide_eq_true_eq] at h1 ⊢
    by_cases hA : ∃ x ∈ c.db.students, x.id = sid
    · by_cases hB : ∃ x ∈ c.db.courses, x.id = cid
      · by_cases hC : ∃ x ∈ c.db.enrollments, x.studentId = sid ∧ x.courseId = cid
        · simp [hA, hB, hC] at h1
        · simp [hA, hB, hC] at h1
          subst h1
          have hnew : ∃ x ∈ c.db.enrollments ++ [(⟨c.db.nextEnrollId, sid, cid⟩ : EnrollRow)],
              x.studentId = sid ∧ x.courseId = cid :=
            ⟨⟨c.db.nextEnrollId, sid, cid⟩, by simp, rfl, rfl⟩
          simp [hA, hB, hnew]
          exact ⟨⟨c.db.nextEnrollId, sid, cid⟩, Or.inr rfl, rfl, rfl⟩
      · simp [hA, hB] at h1
    · simp [hA] at h1
  have hmain : (dupEnrollTxn c sid cid).1.db = c.db ∧ (dupEnrollTxn c sid cid).2 = true := by
    unfold dupEnrollTxn
    simp only [beginTxn, rollbackTxn]
    cases h1 : enrollStudent c.db sid cid with
    | error e => simp [h1]
    | ok db1 => simp [h1, hmem db1 h1]
  refine ⟨hmain.2, hmain.1, ?_, by rw [hmain.1], ?_⟩
  · rw [hmain.1]
    simp [listEnrollments, hEmpty]
  · obtain ⟨g0, tl, hgr⟩ : ∃ g0 tl, g.db.grades = g0 :: tl := by
      cases hgl : g.db.grades with
      | nil => exact absurd hgl hg
      | cons a l => exact ⟨a, l, rfl⟩
    have hdup : ∃ x ∈ g.db.grades,
        x.studentId = g0.studentId ∧ x.assignmentId = g0.assignmentId :=
      ⟨g0, by rw [hgr]; exact List.mem_cons_self g0 tl, rfl, rfl⟩
    have h2 : recordGrade g.db g0.studentId g0.assignmentId 0 = .error .integrityError := by
      unfold recordGrade
      simp only [List.any_eq_true, decide_eq_true_eq]
      by_cases hA : ∃ x ∈ g.db.students, x.id = g0.studentId
      · by_cases hB : ∃ x ∈ g.db.assignments, x.id = g0.assignmentId
        · simp [hA, hB, hdup]
        · simp [hA, hB]
      · simp [hA]
    have hA : demoTxnRollback g = some (gbRollbackTxn (gbBeginTxn g), true) := by
      unfold demoTxnRollback
      rw [hgr]
      simp only [List.head?_cons, gbBeginTxn, gbRollbackTxn, h2]
    exact ⟨gbRollbackTxn (gbBeginTxn g), hA, rfl, rfl⟩

/-- C1 witness: the rollback theorem at the concrete states `exercises.main`
and `demo.main` reach right before their transaction blocks. -/
theorem c1_txn_rollback_witness :
    (dupEnrollTxn ⟨seededEx, seededEx⟩ 1 2).2 = true ∧
    (dupEnrollTxn ⟨seededEx, seededEx⟩ 1 2).1.db = (⟨seededEx, seededEx⟩ : ExConn).db ∧
    listEnrollments (dupEnrollTxn ⟨seededEx, seededEx⟩ 1 2).1.db = [] ∧
    (dupEnrollTxn ⟨seededEx, seededEx⟩ 1 2).1.db.enrollments.length =
      (⟨seededEx, seededEx⟩ : ExConn).db.enrollments.length ∧
    (∃ c2 : GbConn, demoTxnRollback ⟨seededGb, seededGb⟩ = some (c2, true) ∧
        c2.db = (⟨seededGb, seededGb⟩ : GbConn).db ∧
        c2.db.grades.length = (⟨seededGb, seededGb⟩ : GbConn).db.grades.length) :=
  c1_txn_rollback ⟨seededEx, seededEx⟩ 1 2 ⟨seededGb, seededGb⟩ rfl (by
    simp [seededGb])

/-- C6: creating a student and then looking up that email returns a row
whose name and email equal the inputs, and looking up an email no student
has returns `none` rather than an error. -/
theorem c6_create_then_find (db db2 : ExDB) (name email : String) (sid : Nat)
    (h : addStudent db name email = .ok (db2, sid)) :
    (∃ row, findStudentByEmail db2 email = some row ∧
        row.name = name ∧ row.email = email) ∧
    (∀ (d : ExDB) (em : String), (∀ s ∈ d.students, s.email ≠ em) →
        findStudentByEmail d em = none) := by
  constructor
  · unfold addStudent at h
    simp only [List.any_eq_true, decide_eq_true_eq] at h
    by_cases hA : ∃ x ∈ db.students, x.email = email
    · simp [hA] at h
    · simp only [hA, if_false, Except.ok.injEq, Prod.mk.injEq] at h
      obtain ⟨h2, _⟩ := h
      subst h2
      refine ⟨⟨db.nextStudentId, name, email⟩, ?_, rfl, rfl⟩
      unfold findStudentByEmail
      rw [List.find?_append]
      have hnone : db.students.find? (fun s => s.email = email) = none :=
        List.find?_eq_none.mpr fun x hx => by
          simpa using fun he => hA ⟨x, hx, he⟩
      rw [hnone]
      simp
  · intro d em hno
    exact List.find?_eq_none.mpr fun x hx => by simpa using hno x hx

/-- C6 witness: the round trip at a concrete empty database and the
lookup-miss at the resulting database. -/
theorem c6_create_then_find_witness :
    (∃ row, findStudentByEmail c6Db2 "ava@example.com" = some row ∧
        row.name = "Ava" ∧ row.email = "ava@example.com") ∧
    (∀ (d : ExDB) (em : String), (∀ s ∈ d.students, s.email ≠ em) →
        findStudentByEmail d em = none) :=
  c6_create_then_find emptyEx c6Db2 "Ava" "ava@example.com" 1 rfl

/-- Under a duplicate-free id column, filtering a student list for the id
of one of its members yields exactly that member. -/
theorem filter_eq_singleton_of_nodup (s : StudentRow) (l : List StudentRow)
    (hmem : s ∈ l) (hnd : (l.map (fun t => t.id)).Nodup) :
    l.filter (fun t => t.id = s.id) = [s] := by
  induction l with
  | nil => exact absurd hmem (List.not_mem_nil s)
  | cons t l ih =>
    rw [List.map_cons, List.nodup_cons] at hnd
    rcases List.mem_cons.mp hmem with h | h
    · subst h
      have hemp : l.filter (fun u => decide (u.id = s.id)) = [] := by
        rw [List.filter_eq_nil_iff]
        intro u hu
        simp only [decide_eq_true_eq]
        intro he
        exact hnd.1 (by rw [← he]; exact List.mem_map_of_mem _ hu)
      rw [List.filter_cons, if_pos (by simp)]
      rw [show (List.filter (fun u => decide (u.id = s.id)) l) = [] from hemp]
    · have hne : ¬ t.id = s.id := by
        intro he
        exact hnd.1 (by rw [he]; exact List.mem_map_of_mem _ h)
      rw [List.filter_cons, if_neg (by simpa using hne)]
      exact ih h hnd.2

/-- Scanning the renamed student list for the renamed student's email finds
exactly that student with the new name, provided ids and emails are
duplicate-free. -/
theorem find_renamed (s : StudentRow) (nm : String) (l : List StudentRow)
    (hmem : s ∈ l) (hndid : (l.map (fun t => t.id)).Nodup)
    (hndem : (l.map (fun t => t.email)).Nodup) :
    (l.map (fun t => if t.id = s.id then { t with name := nm } else t)).find?
        (fun t => t.email = s.email) = some ⟨s.id, nm, s.email⟩ := by
  induction l with
  | nil => exact absurd hmem (List.not_mem_nil s)
  | cons t l ih =>
    rw [List.map_cons, List.nodup_cons] at hndid hndem
    rcases List.mem_cons.mp hmem with h | h
    · subst h
      rw [List.map_cons, if_pos rfl]
      rw [List.find?_cons_of_pos _ (by simp)]
    · have hne_id : ¬ t.id = s.id := by
        intro he
        exact hndid.1 (by rw [he]; exact List.mem_map_of_mem _ h)
      have hne_em : ¬ t.email = s.email := by
        intro he
        exact hndem.1 (by rw [he]; exact List.mem_map_of_mem _ h)
      rw [List.map_cons, if_neg hne_id]
      rw [List.find?_cons_of_neg _ (by simpa using hne_em)]
      exact ih h hndid.2 hndem.2

/-- C7: renaming a nonexistent student id changes nothing and reports a
changed-count of 0 (not an error); renaming an existing student reports 1,
and a subsequent lookup by that student's email sees the new name. -/
theorem c7_rename (db : ExDB) (sid : Nat) (nm : String) :
    ((∀ s ∈ db.students, s.id ≠ sid) →
       (renameStudent db sid nm).2 = 0 ∧ (renameStudent db sid nm).1 = db) ∧
    (∀ s ∈ db.students, s.id = sid →
       (db.students.map (fun t => t.id)).Nodup →
       (db.students.map (fun t => t.email)).Nodup →
       (renameStudent db sid nm).2 = 1 ∧
       findStudentByEmail (renameStudent db sid nm).1 s.email =
         some ⟨s.id, nm, s.email⟩) := by
  constructor
  · intro hno
    constructor
    · have hemp : db.students.filter (fun s => decide (s.id = sid)) = [] := by
        rw [List.filter_eq_nil_iff]
        intro u hu
        simpa using hno u hu
      unfold renameStudent
      rw [show (List.filter (fun s => decide (s.id = sid)) db.students) = [] from hemp]
      rfl
    · unfold renameStudent
      have hmapid : db.students.map
          (fun s => if s.id = sid then { s with name := nm } else s) = db.students :=
        (List.map_congr_left fun s hs => if_neg (hno s hs)).trans (List.map_id _)
      rw [hmapid]
  · intro s hs hsid hndid hndem
    subst hsid
    constructor
    · unfold renameStudent
      rw [show (List.filter (fun t => decide (t.id = s.id)) db.students) = [s] from
            filter_eq_singleton_of_nodup s db.students hs hndid]
      rfl
    · unfold renameStudent findStudentByEmail
      exact find_renamed s nm db.students hs hndid hndem

/-- C7 witness: renaming the absent id 99 is a no-op with count 0, and
renaming Ava (id 1) gives count 1 with the lookup reflecting the new name. -/
theorem c7_rename_witness :
    ((renameStudent seededEx 99 "Ada").2 = 0 ∧
       (renameStudent seededEx 99 "Ada").1 = seededEx) ∧
    ((renameStudent seededEx 1 "Ada").2 = 1 ∧
       findStudentByEmail (renameStudent seededEx 1 "Ada").1 "ava@example.com" =
         some ⟨1, "Ada", "ava@example.com"⟩) :=
  ⟨(c7_rename seededEx 99 "Ada").1 (by decide),
   (c7_rename seededEx 1 "Ada").2 ⟨1, "Ava", "ava@example.com"⟩ (by decide) rfl
     (by decide) (by decide)⟩

/-- C8: deleting a nonexistent student id removes nothing and returns 0;
deleting an existing student returns 1, removes exactly that student from
the students table, cascades removal of exactly that student's
enrollments, and leaves the courses table untouched. -/
theorem c8_delete (db : ExDB) (sid : Nat) :
    ((∀ s ∈ db.students, s.id ≠ sid) → deleteStudent db sid = (db, 0)) ∧
    (∀ s ∈ db.students, s.id = sid →
      (db.students.map (fun t => t.id)).Nodup →
      (deleteStudent db sid).2 = 1 ∧
      (deleteStudent db sid).1.students = db.students.filter (fun t => ¬ t.id = sid) ∧
      s ∉ (deleteStudent db sid).1.students ∧
      (∀ t ∈ db.students, t.id ≠ sid → t ∈ (deleteStudent db sid).1.students) ∧
      (deleteStudent db sid).1.enrollments =
        db.enrollments.filter (fun e => ¬ e.studentId = sid) ∧
      (∀ e ∈ db.enrollments, e.studentId = sid →
         e ∉ (deleteStudent db sid).1.enrollments) ∧
      (∀ e ∈ db.enrollments, e.studentId ≠ sid →
         e ∈ (deleteStudent db sid).1.enrollments) ∧
      (deleteStudent db sid).1.courses = db.courses) := by
  constructor
  · intro hno
    unfold deleteStudent
    rw [if_neg]
    simp only [List.any_eq_true, decide_eq_true_eq]
    rintro ⟨x, hx, he⟩
    exact hno x hx he
  · intro s hs hsid hnd
    subst hsid
    have hany : (db.students.any fun t => decide (t.id = s.id)) = true := by
      simp only [List.any_eq_true, decide_eq_true_eq]
      exact ⟨s, hs, rfl⟩
    unfold deleteStudent
    rw [if_pos hany]
    refine ⟨?_, rfl, ?_, ?_, rfl, ?_, ?_, rfl⟩
    · rw [show (List.filter (fun t => decide (t.id = s.id)) db.students) = [s] from
            filter_eq_singleton_of_nodup s db.students hs hnd]
      rfl
    · intro hmem
      have := (List.mem_filter.mp hmem).2
      simp at this
    · intro t ht hne
      exact List.mem_filter.mpr ⟨ht, by simpa using hne⟩
    · intro e he hesid hmem
      have := (List.mem_filter.mp hmem).2
      simp [hesid] at this
    · intro e he hne
      exact List.mem_filter.mpr ⟨he, by simpa using hne⟩

/-- C8 witness: deleting the absent id 99 from the seeded exercises state is
a no-op returning 0, and deleting Ava (id 1) removes her and her
enrollments while returning 1. -/
theorem c8_delete_witness :
    deleteStudent seededEx 99 = (seededEx, 0) ∧
    (deleteStudent seededEx 1).2 = 1 ∧
    (deleteStudent seededEx 1).1.students =
      seededEx.students.filter (fun t => ¬ t.id = 1) ∧
    (⟨1, "Ava", "ava@example.com"⟩ : StudentRow) ∉ (deleteStudent seededEx 1).1.students ∧
    (deleteStudent seededEx 1).1.courses = seededEx.courses := by
  have h1 := (c8_delete seededEx 99).1 (by decide)
  have h2 := (c8_delete seededEx 1).2 ⟨1, "Ava", "ava@example.com"⟩ (by decide) rfl (by decide)
  exact ⟨h1, h2.1, h2.2.1, h2.2.2.1, h2.2.2.2.2.2.2.2⟩

/-- C10: renaming touches nothing but the name of the rows whose id
matches: courses, enrollments and the id counters are unchanged, the
students list keeps its length, every row keeps its id and email, rows with
a different id are untouched, and the matched row only has its name
replaced. -/
theorem c10_rename_frame (db : ExDB) (sid : Nat) (nm : String) :
    (renameStudent db sid nm).1.courses = db.courses ∧
    (renameStudent db sid nm).1.enrollments = db.enrollments ∧
    (renameStudent db sid nm).1.nextStudentId = db.nextStudentId ∧
    (renameStudent db sid nm).1.nextCourseId = db.nextCourseId ∧
    (renameStudent db sid nm).1.nextEnrollId = db.nextEnrollId ∧
    (renameStudent db sid nm).1.students.length = db.students.length ∧
    ∀ (i : Nat) (hi : i < db.students.length),
      ∃ hi2 : i < (renameStudent db sid nm).1.students.length,
        ((renameStudent db sid nm).1.students.get ⟨i, hi2⟩).id =
            (db.students.get ⟨i, hi⟩).id ∧
        ((renameStudent db sid nm).1.students.get ⟨i, hi2⟩).email =
            (db.students.get ⟨i, hi⟩).email ∧
        ((db.students.get ⟨i, hi⟩).id ≠ sid →
           (renameStudent db sid nm).1.students.get ⟨i, hi2⟩ =
             db.students.get ⟨i, hi⟩) ∧
        ((db.students.get ⟨i, hi⟩).id = sid →
           (renameStudent db sid nm).1.students.get ⟨i, hi2⟩ =
             ⟨(db.students.get ⟨i, hi⟩).id, nm, (db.students.get ⟨i, hi⟩).email⟩) := by
  refine ⟨rfl, rfl, rfl, rfl, rfl, List.length_map _ _, fun i hi => ?_⟩
  have hi2 : i < (renameStudent db sid nm).1.students.length := by
    rw [show (renameStudent db sid nm).1.students.length = db.students.length from
          List.length_map _ _]
    exact hi
  have hget : (renameStudent db sid nm).1.students.get ⟨i, hi2⟩ =
      (if (db.students.get ⟨i, hi⟩).id = sid then
        ⟨(db.students.get ⟨i, hi⟩).id, nm, (db.students.get ⟨i, hi⟩).email⟩
       else db.students.get ⟨i, hi⟩) := by
    unfold renameStudent
    exact List.get_map _
  refine ⟨hi2, ?_, ?_, ?_, ?_⟩
  · rw [hget]
    by_cases h : (db.students.get ⟨i, hi⟩).id = sid
    · rw [if_pos h]
    · rw [if_neg h]
  · rw [hget]
    by_cases h : (db.students.get ⟨i, hi⟩).id = sid
    · rw [if_pos h]
    · rw [if_neg h]
  · intro h
    rw [hget, if_neg h]
  · intro h
    rw [hget, if_pos h]

/-- C10 witness: the frame property at the seeded exercises state, renaming
id 1, inspected at row index 0. -/
theorem c10_rename_frame_witness :
    (renameStudent seededEx 1 "Ada").1.courses = seededEx.courses ∧
    (renameStudent seededEx 1 "Ada").1.enrollments = seededEx.enrollments ∧
    ∃ hi2 : 0 < (renameStudent seededEx 1 "Ada").1.students.length,
      ((renameStudent seededEx 1 "Ada").1.students.get ⟨0, hi2⟩).email =
          (seededEx.students.get ⟨0, by decide⟩).email ∧
      ((seededEx.students.get ⟨0, by decide⟩).id = 1 →
         (renameStudent seededEx 1 "Ada").1.students.get ⟨0, hi2⟩ =
           ⟨(seededEx.students.get ⟨0, by decide⟩).id, "Ada",
            (seededEx.students.get ⟨0, by decide⟩).email⟩) := by
  have h := c10_rename_frame seededEx 1 "Ada"
  obtain ⟨hi2, hprop⟩ := h.2.2.2.2.2.2 0 (by decide)
  exact ⟨h.1, h.2.1, hi2, hprop.2.1, hprop.2.2.2⟩

/-- Length of a repeated-character run. -/
theorem repChar_length (n : Nat) (c : Char) : (repChar n c).length = n := by
  simp [repChar, String.length]

/-- Python ljust pads to exactly the requested width when the string is not
already longer. -/
theorem ljust_length (s : String) (w : Nat) (h : s.length ≤ w) :
    (ljust s w).length = w := by
  rw [ljust, String.length_append, repChar_length]
  omega

/-- Every list member's measure is bounded by the running maximum. -/
theorem le_foldr_max {α : Type} (f : α → Nat) (x : α) :
    ∀ l : List α, x ∈ l → f x ≤ l.foldr (fun a acc => max (f a) acc) 0
  | [], h => absurd h (List.not_mem_nil x)
  | a :: l, h => by
    rcases List.mem_cons.mp h with rfl | h
    · exact le_max_left _ _
    · exact le_trans (le_foldr_max f x l h) (le_max_right _ _)

/-- The running maximum is zero or attained by some list member. -/
theorem foldr_max_attained {α : Type} (f : α → Nat) :
    ∀ l : List α, l.foldr (fun a acc => max (f a) acc) 0 = 0 ∨
      ∃ x ∈ l, f x = l.foldr (fun a acc => max (f a) acc) 0
  | [] => Or.inl rfl
  | a :: l => by
    rcases foldr_max_attained f l with h | ⟨x, hx, he⟩
    · refine Or.inr ⟨a, List.mem_cons_self a l, ?_⟩
      rw [List.foldr_cons, h, Nat.max_zero]
    · by_cases hc : f a ≤ l.foldr (fun a acc => max (f a) acc) 0
      · exact Or.inr ⟨x, List.mem_cons_of_mem a hx,
          he.trans (by rw [List.foldr_cons, Nat.max_eq_right hc])⟩
      · exact Or.inr ⟨a, List.mem_cons_self a l,
          by rw [List.foldr_cons, Nat.max_eq_left (Nat.le_of_not_le hc)]⟩

/-- Every cell of every row fits within its column's computed width. -/
theorem cellStr_le_colWidth (rs : ResultSet) (j : Nat) (r : List Value)
    (hr : r ∈ rs.rows) : (cellStr r j).length ≤ colWidth rs j :=
  le_trans (le_foldr_max (fun r => (cellStr r j).length) r rs.rows hr)
    (le_max_right _ _)

/-- The column header fits within its column's computed width. -/
theorem header_le_colWidth (rs : ResultSet) (j : Nat) :
    (rs.cols.getD j "").length ≤ colWidth rs j :=
  le_max_left _ _

/-- C5: on a non-empty uniform row sequence the formatter emits the title
block, header, dash rule and one line per row; each column's width bounds
the header and every stringified cell and equals one of them (it is exactly
the maximum); and every rendered cell is padded to exactly its column's
width. The rendering is a pure projection of the rows and is total on every
scalar value. -/
theorem c5_formatter (title : String) (rs : ResultSet)
    (hne : rs.rows ≠ []) (hu : ∀ r ∈ rs.rows, r.length = rs.cols.length) :
    printRows title rs =
      ["", repChar 80 '=', title, repChar 80 '-', headerLine rs, sepLine rs]
        ++ rs.rows.map (bodyLine rs) ∧
    (∀ j, ∀ r ∈ rs.rows, (cellStr r j).length ≤ colWidth rs j) ∧
    (∀ j, (rs.cols.getD j "").length ≤ colWidth rs j) ∧
    (∀ j, (rs.cols.getD j "").length = colWidth rs j ∨
       ∃ r ∈ rs.rows, (cellStr r j).length = colWidth rs j) ∧
    (∀ j, ∀ r ∈ rs.rows, (ljust (cellStr r j) (colWidth rs j)).length = colWidth rs j) ∧
    (∀ j, (ljust (rs.cols.getD j "") (colWidth rs j)).length = colWidth rs j) := by
  refine ⟨?_, fun j r hr => cellStr_le_colWidth rs j r hr,
          fun j => header_le_colWidth rs j, fun j => ?_,
          fun j r hr => ljust_length _ _ (cellStr_le_colWidth rs j r hr),
          fun j => ljust_length _ _ (header_le_colWidth rs j)⟩
  · unfold printRows
    rw [if_neg (by simpa [List.isEmpty_iff] using hne)]
    simp
  · rcases foldr_max_attained (fun r => (cellStr r j).length) rs.rows with h | ⟨x, hx, he⟩
    · left
      unfold colWidth
      rw [h, Nat.max_zero]
    · by_cases hc : (rs.cols.getD j "").length ≤
          rs.rows.foldr (fun r acc => max (cellStr r j).length acc) 0
      · right
        exact ⟨x, hx, he.trans (by unfold colWidth; rw [Nat.max_eq_right hc])⟩
      · left
        unfold colWidth
        rw [Nat.max_eq_left (Nat.le_of_not_le hc)]

/-- C5 witness: the formatter properties at a concrete two-column,
two-row result set. -/
theorem c5_formatter_witness :
    printRows "All students" sampleRs =
      ["", repChar 80 '=', "All students", repChar 80 '-', headerLine sampleRs,
        sepLine sampleRs] ++ sampleRs.rows.map (bodyLine sampleRs) ∧
    (∀ j, ∀ r ∈ sampleRs.rows, (cellStr r j).length ≤ colWidth sampleRs j) ∧
    (∀ j, (sampleRs.cols.getD j "").length ≤ colWidth sampleRs j) ∧
    (∀ j, (sampleRs.cols.getD j "").length = colWidth sampleRs j ∨
       ∃ r ∈ sampleRs.rows, (cellStr r j).length = colWidth sampleRs j) ∧
    (∀ j, ∀ r ∈ sampleRs.rows,
       (ljust (cellStr r j) (colWidth sampleRs j)).length = colWidth sampleRs j) ∧
    (∀ j, (ljust (sampleRs.cols.getD j "") (colWidth sampleRs j)).length =
       colWidth sampleRs j) :=
  c5_formatter "All students" sampleRs (by decide) (by decide)
